import Mathlib

/-!
# Verification of vimeo-mcp-lite (src/index.ts)

A shallow embedding of the handlers, extractors and dispatch table of the
vimeo-mcp-lite MCP server, together with theorems settling the spec claims.

Modelling conventions:
* A JSON value produced by `JSON.stringify` is modelled by `Json`.  An
  object field whose JavaScript value is `undefined` is dropped by
  `JSON.stringify`; we model this by building the field list conditionally.
* A possibly-absent (`undefined`) JavaScript value is an `Option`.
* JavaScript truthiness on strings (`""` is falsy) and numbers (`0` is
  falsy) is modelled explicitly by `jsOrStr` / `jsOrNat`; note that a
  JavaScript array (even `[]`) is always truthy.
* `String.prototype.split` with a non-empty separator agrees with
  `String.splitOn` (both return `[""]` on the empty string); `.pop()` on
  the (always non-empty) split result is `List.getLast?`.
-/

/-- JSON values, as produced by `JSON.stringify`. -/
inductive Json where
  | null
  | str (s : String)
  | num (n : Nat)
  | bool (b : Bool)
  | arr (elems : List Json)
  | obj (fields : List (String × Json))

/-- The keys of a JSON object (empty for non-objects). -/
def Json.keys : Json → List String
  | .obj fields => fields.map Prod.fst
  | _ => []

/-- First value bound to a key in a JSON object. -/
def Json.lookup (j : Json) (k : String) : Option Json :=
  match j with
  | .obj fields => (fields.find? (fun p => p.fst == k)).map Prod.snd
  | _ => none

/-- JavaScript `v || d` for a possibly-undefined string `v`
(`undefined` and `""` are falsy). -/
def jsOrStr (v : Option String) (d : String) : String :=
  match v with
  | none => d
  | some s => if s = "" then d else s

/-- JavaScript `v || d` for a possibly-undefined number `v`
(`undefined` and `0` are falsy). -/
def jsOrNat (v : Option Nat) (d : Nat) : Nat :=
  match v with
  | none => d
  | some n => if n = 0 then d else n

/-- Does `pat` occur as a contiguous run inside `l`?  (JavaScript
`String.prototype.includes`, at the character-list level.) -/
def charsContains (pat : List Char) : List Char → Bool
  | [] => pat.isEmpty
  | c :: rest => pat.isPrefixOf (c :: rest) || charsContains pat rest

/-- JavaScript `s.includes(pat)`. -/
def jsIncludes (s pat : String) : Bool :=
  charsContains pat.data s.data

/-- Split a character list on a single separator character; agrees with
JavaScript `split` with a one-character separator (`[""]` on the empty
string, trailing separator yields a trailing empty segment). -/
def splitChars (sep : Char) : List Char → List (List Char)
  | [] => [[]]
  | c :: rest =>
    if c = sep then [] :: splitChars sep rest
    else
      match splitChars sep rest with
      | [] => [[c]]
      | h :: t => (c :: h) :: t

/-- JavaScript `s.split(sep)` for a one-character separator. -/
def jsSplit (s : String) (sep : Char) : List String :=
  (splitChars sep s.data).map (fun cs => ⟨cs⟩)

/-- JavaScript `s.substring(0, n)` (also used for `.take`-like access). -/
def jsTake (s : String) (n : Nat) : String :=
  ⟨s.data.take n⟩

/-- `uri.split("/").pop()`: the trailing path segment of a URI.  The split
result is never empty, so `.pop()` is never `undefined`; the `|| ""` in the
source only turns an empty segment into itself. -/
def uriTail (uri : String) : String :=
  ((jsSplit uri '/').getLast?).getD ""

/-- `created_time.split("T")[0]`: the calendar-date part of a timestamp. -/
def dateOfTimestamp (ts : String) : String :=
  ((jsSplit ts 'T').head?).getD ""

/-! ## Upstream resource shapes (only the fields the source reads) -/

/-- `video.parent_folder` as read by the extractors. -/
structure ParentFolder where
  name : Option String := none

/-- A tag object in a video's upstream `tags` list. -/
structure TagObj where
  name : Option String := none

/-- An upstream video resource; every field the source dereferences is
optional, as the remote API is not assumed to populate them. -/
structure UpstreamVideo where
  uri : Option String := none
  name : Option String := none
  duration : Option Nat := none
  created_time : Option String := none
  parent_folder : Option ParentFolder := none
  description : Option String := none
  tags : Option (List TagObj) := none
  privacy_view : Option String := none
  link : Option String := none

/-- `folder.metadata.connections.videos` (holds the video count). -/
structure VideosConnection where
  total : Option Nat := none

/-- `folder.metadata.connections`. -/
structure FolderConnections where
  videos : Option VideosConnection := none

/-- `folder.metadata`. -/
structure FolderMetadata where
  connections : Option FolderConnections := none

/-- An upstream folder (project) resource. -/
structure UpstreamFolder where
  uri : Option String := none
  name : Option String := none
  metadata : Option FolderMetadata := none

/-! ## Minimal record shapes (the TypeScript interfaces) -/

/-- The `VideoMinimal` interface: `folder` is optional. -/
structure VideoMinimal where
  id : String
  name : String
  duration : Nat
  created : String
  folder : Option String
deriving DecidableEq

/-- The `FolderMinimal` interface. -/
structure FolderMinimal where
  id : String
  name : String
  video_count : Nat
deriving DecidableEq

/-- `extractVideoMinimal` from the source:
`uri = video.uri || ""`, `id = uri.split("/").pop() || ""`,
`name = video.name || "Untitled"`, `duration = video.duration || 0`,
`created = video.created_time?.split("T")[0] || ""`,
`folder = video.parent_folder?.name`. -/
def extractVideoMinimal (video : UpstreamVideo) : VideoMinimal :=
  let uri := jsOrStr video.uri ""
  { id := uriTail uri
    name := jsOrStr video.name "Untitled"
    duration := jsOrNat video.duration 0
    created := jsOrStr (video.created_time.map dateOfTimestamp) ""
    folder := video.parent_folder.bind (·.name) }

/-- `extractFolderMinimal` from the source:
`video_count = folder.metadata?.connections?.videos?.total || 0`. -/
def extractFolderMinimal (folder : UpstreamFolder) : FolderMinimal :=
  let uri := jsOrStr folder.uri ""
  { id := uriTail uri
    name := jsOrStr folder.name "Untitled"
    video_count :=
      jsOrNat (((folder.metadata.bind (·.connections)).bind (·.videos)).bind (·.total)) 0 }

/-- `JSON.stringify` of a `VideoMinimal`: the `folder` key is dropped when
its value is `undefined`. -/
def VideoMinimal.toJson (v : VideoMinimal) : Json :=
  Json.obj ([("id", Json.str v.id), ("name", Json.str v.name),
             ("duration", Json.num v.duration), ("created", Json.str v.created)] ++
            (match v.folder with
             | some f => [("folder", Json.str f)]
             | none => []))

/-- `JSON.stringify` of a `FolderMinimal` (no optional fields). -/
def FolderMinimal.toJson (f : FolderMinimal) : Json :=
  Json.obj [("id", Json.str f.id), ("name", Json.str f.name),
            ("video_count", Json.num f.video_count)]

/-! ## The inline video record built by `handleGetFolderVideos` -/

/-- The inline record `{id: v.uri?.split("/").pop(), name: v.name,
duration: v.duration, created: v.created_time?.split("T")[0]}` from
`handleGetFolderVideos`; every field may be `undefined`. -/
structure FolderVideoEntry where
  id : Option String
  name : Option String
  duration : Option Nat
  created : Option String
deriving DecidableEq

/-- The inline per-video mapping in `handleGetFolderVideos`.  Unlike
`extractVideoMinimal`, `id` has no `|| ""` fallback: an absent `uri`
leaves `id` as `undefined`. -/
def folderVideoEntry (v : UpstreamVideo) : FolderVideoEntry :=
  { id := v.uri.map uriTail
    name := v.name
    duration := v.duration
    created := v.created_time.map dateOfTimestamp }

/-- `JSON.stringify` of a `FolderVideoEntry`: `undefined` fields dropped. -/
def FolderVideoEntry.toJson (e : FolderVideoEntry) : Json :=
  Json.obj ((match e.id with | some i => [("id", Json.str i)] | none => []) ++
            (match e.name with | some n => [("name", Json.str n)] | none => []) ++
            (match e.duration with | some d => [("duration", Json.num d)] | none => []) ++
            (match e.created with | some c => [("created", Json.str c)] | none => []))

/-! ## Operation handlers -/

/-- One page of the `/me/projects` listing as seen by `handleListFolders`:
the HTTP status and `res.data.data` (`none` models a body without a `data`
array). -/
structure FoldersPage where
  status : Nat := 0
  data : Option (List UpstreamFolder) := none

/-- A page on which the `list_folders` loop continues: status 200, a
`data` array present, and a full page of 100 folders. -/
def pageFull (p : FoldersPage) : Bool :=
  p.status == 200 &&
    (match p.data with
     | some l => l.length == 100
     | none => false)

/-- The `while (hasMore)` loop of `handleListFolders`, with explicit fuel
(the source loop is unbounded; the theorems below supply enough fuel to
reach the first non-full page).  `up` is the mock upstream, mapping a page
number to its response.  Returns the accumulated minimal folders and the
number of page fetches performed. -/
def listFoldersLoop (up : Nat → FoldersPage) :
    Nat → Nat → List FolderMinimal → Nat → List FolderMinimal × Nat
  | 0, _, acc, fetches => (acc, fetches)
  | fuel + 1, page, acc, fetches =>
    let res := up page
    if res.status = 200 then
      match res.data with
      | some l =>
        let acc2 := acc ++ l.map extractFolderMinimal
        if l.length = 100 then listFoldersLoop up fuel (page + 1) acc2 (fetches + 1)
        else (acc2, fetches + 1)
      | none => (acc, fetches + 1)
    else (acc, fetches + 1)

/-- The value serialized by `handleListFolders`. -/
structure ListFoldersResult where
  total : Nat
  folders : List FolderMinimal
deriving DecidableEq

/-- `handleListFolders`: run the pagination loop from page 1 and return
`{total: folders.length, folders}` together with the fetch count. -/
def handleListFolders (up : Nat → FoldersPage) (fuel : Nat) :
    ListFoldersResult × Nat :=
  let r := listFoldersLoop up fuel 1 [] 0
  ({ total := r.1.length, folders := r.1 }, r.2)

/-- Arguments accepted by `handleListVideos`. -/
structure ListVideosArgs where
  folder_id : Option String := none
  search : Option String := none
  page : Option Nat := none
  per_page : Option Nat := none

/-- `Math.min(args.per_page || 50, 100)` from `handleListVideos`. -/
def listVideosPerPage (args : ListVideosArgs) : Nat :=
  min (jsOrNat args.per_page 50) 100

/-- The outgoing endpoint built by `handleListVideos` (the URI-component
encoding of the search term is abstracted as the identity; `folder_id` and
`search` participate only when truthy, as in the source's `if` guards). -/
def listVideosEndpoint (args : ListVideosArgs) : String :=
  let page := jsOrNat args.page 1
  let perPage := listVideosPerPage args
  let base :=
    match args.folder_id with
    | some fid =>
      if fid = "" then
        "/me/videos?per_page=" ++ toString perPage ++ "&page=" ++ toString page ++
          "&fields=uri,name,duration,created_time,parent_folder"
      else
        "/me/projects/" ++ fid ++ "/videos?per_page=" ++ toString perPage ++
          "&page=" ++ toString page ++ "&fields=uri,name,duration,created_time"
    | none =>
      "/me/videos?per_page=" ++ toString perPage ++ "&page=" ++ toString page ++
        "&fields=uri,name,duration,created_time,parent_folder"
  match args.search with
  | some q => if q = "" then base else base ++ "&query=" ++ q
  | none => base

/-- Upstream response to the single-video fetch of `handleGetVideo`. -/
structure VideoResponse where
  status : Nat := 0
  data : UpstreamVideo := {}

/-- `handleGetVideo`: the object passed to `JSON.stringify` (fields whose
JavaScript value is `undefined` are dropped). -/
def handleGetVideo (videoId : String) (res : VideoResponse) : Json :=
  if res.status ≠ 200 then
    Json.obj [("error", Json.str "Video not found"), ("status", Json.num res.status)]
  else
    let v := res.data
    Json.obj
      ([("id", Json.str videoId)] ++
       (match v.name with | some n => [("name", Json.str n)] | none => []) ++
       [("description", Json.str (jsOrStr (v.description.map (fun d => jsTake d 500)) ""))] ++
       (match v.duration with | some d => [("duration", Json.num d)] | none => []) ++
       (match v.created_time with
        | some t => [("created", Json.str (dateOfTimestamp t))]
        | none => []) ++
       (match v.parent_folder.bind (·.name) with
        | some f => [("folder", Json.str f)]
        | none => []) ++
       [("tags", Json.arr ((v.tags.getD []).map
          (fun t => match t.name with | some n => Json.str n | none => Json.null)))] ++
       (match v.privacy_view with | some p => [("privacy", Json.str p)] | none => []) ++
       (match v.link with | some l => [("link", Json.str l)] | none => []))

/-- Arguments accepted by `handleGetFolderVideos`. -/
structure GetFolderVideosArgs where
  folder_id : String
  page : Option Nat := none
  per_page : Option Nat := none

/-- Response to the folder-metadata fetch of `handleGetFolderVideos` (its
status is never inspected by the source). -/
structure FolderInfoResponse where
  status : Nat := 0
  data : UpstreamFolder := {}

/-- Response to the folder-page fetch of `handleGetFolderVideos`. -/
structure FolderVideosResponse where
  status : Nat := 0
  data : Option (List UpstreamVideo) := none

/-- `handleGetFolderVideos`: folder name degrades to "Unknown" when the
metadata fetch yields none; a non-200 on the video-page fetch is an error
result; otherwise each video is mapped by the inline `folderVideoEntry`. -/
def handleGetFolderVideos (args : GetFolderVideosArgs)
    (folderRes : FolderInfoResponse) (res : FolderVideosResponse) : Json :=
  let page := jsOrNat args.page 1
  let perPage := min (jsOrNat args.per_page 50) 100
  let folderName := jsOrStr folderRes.data.name "Unknown"
  let totalVideos :=
    jsOrNat (((folderRes.data.metadata.bind (·.connections)).bind (·.videos)).bind (·.total)) 0
  if res.status ≠ 200 then
    Json.obj [("error", Json.str "Failed to fetch folder videos"),
              ("status", Json.num res.status)]
  else
    Json.obj [("folder", Json.str folderName), ("total", Json.num totalVideos),
              ("page", Json.num page), ("per_page", Json.num perPage),
              ("videos", Json.arr ((res.data.getD []).map
                 (fun v => (folderVideoEntry v).toJson)))]

/-- `res.data` fields read by `handleCreateFolder`. -/
structure CreateFolderData where
  uri : Option String := none
  error : Option String := none

/-- Upstream response to the folder-creation POST. -/
structure CreateFolderResponse where
  status : Nat := 0
  data : CreateFolderData := {}

/-- `res.data.error?.includes("already exists")` (`undefined` is falsy). -/
def errorSaysExists : Option String → Bool
  | some e => jsIncludes e "already exists"
  | none => false

/-- `handleCreateFolder`: 201 → `{success: true, id, name}` with `id` the
URI tail (key dropped when the response has no `uri`); 400 with an
"already exists" error text → a fixed error; otherwise the raw upstream
error message (or a fallback when absent/empty). -/
def handleCreateFolder (name : String) (res : CreateFolderResponse) : Json :=
  if res.status = 201 then
    Json.obj ([("success", Json.bool true)] ++
      (match res.data.uri.map uriTail with
       | some i => [("id", Json.str i)]
       | none => []) ++
      [("name", Json.str name)])
  else if res.status = 400 ∧ errorSaysExists res.data.error then
    Json.obj [("success", Json.bool false), ("error", Json.str "Folder already exists")]
  else
    Json.obj [("success", Json.bool false),
              ("error", Json.str (jsOrStr res.data.error "Failed to create folder"))]

/-- Arguments accepted by `handleUpdateVideo`. -/
structure UpdateVideoArgs where
  video_id : String
  name : Option String := none
  description : Option String := none
  tags : Option (List String) := none

/-- The PATCH body built by `handleUpdateVideo`: `if (args.name) body.name
= args.name` and likewise for `description` and `tags`.  A supplied empty
string is falsy and therefore skipped; an array — even the empty array —
is truthy and included. -/
def buildUpdateBody (args : UpdateVideoArgs) : List (String × Json) :=
  (match args.name with
   | some s => if s = "" then [] else [("name", Json.str s)]
   | none => []) ++
  (match args.description with
   | some s => if s = "" then [] else [("description", Json.str s)]
   | none => []) ++
  (match args.tags with
   | some ts => [("tags", Json.arr (ts.map Json.str))]
   | none => [])

/-- `handleUpdateVideo`'s result: success iff the PATCH status is 200. -/
def handleUpdateVideo (args : UpdateVideoArgs) (status : Nat) : Json :=
  Json.obj [("success", Json.bool (status == 200)), ("video_id", Json.str args.video_id)]

/-- `x.toFixed(2)` picks the integer `n` for which `n / 100` is closest to
`x`, ties toward the larger `n` — for non-negative `x` that is
`⌊100 x + 1/2⌋`. -/
def fixed2Int (q : ℚ) : ℤ := ⌊q * 100 + 1 / 2⌋

/-- Two-digit zero-padded rendering of a fraction part. -/
def pad2 (n : Nat) : String := if n < 10 then "0" ++ toString n else toString n

/-- `x.toFixed(2)` for a non-negative rational `x`. -/
def toFixed2 (q : ℚ) : String :=
  let n := fixed2Int q
  toString (n / 100) ++ "." ++ pad2 (n % 100).toNat

/-- `(bytes / 1073741824).toFixed(2)` from `handleGetStats`.  For any byte
count below 2^53 the IEEE-double division by 2^30 is exact (it only
shifts the exponent), so the rational model matches the JavaScript value. -/
def storageGb (bytes : Nat) : String := toFixed2 ((bytes : ℚ) / 1073741824)

/-- `userRes.data.upload_quota.space` fields read by `handleGetStats`. -/
structure QuotaSpace where
  used : Option Nat := none
  max : Option Nat := none

/-- `userRes.data.upload_quota`. -/
structure UploadQuota where
  space : Option QuotaSpace := none

/-- `userRes.data` as read by `handleGetStats`. -/
structure UserData where
  upload_quota : Option UploadQuota := none

/-- `res.data.total` of the two count probes (read without a status check). -/
structure StatsCountData where
  total : Option Nat := none

/-- `handleGetStats`: combine the two count probes and the quota fetch;
storage is rendered in gigabytes with two decimals. -/
def handleGetStats (videoData folderData : StatsCountData) (userData : UserData) : Json :=
  let used := jsOrNat ((userData.upload_quota.bind (·.space)).bind (·.used)) 0
  let maxBytes := jsOrNat ((userData.upload_quota.bind (·.space)).bind (·.max)) 0
  Json.obj [("total_videos", Json.num (jsOrNat videoData.total 0)),
            ("total_folders", Json.num (jsOrNat folderData.total 0)),
            ("storage_used_gb", Json.str (storageGb used)),
            ("storage_max_gb", Json.str (storageGb maxBytes))]

/-! ## Dispatch table -/

/-- The operation names declared in the dispatch switch. -/
def toolNames : List String :=
  ["list_folders", "list_videos", "get_video", "get_folder_videos", "move_video",
   "create_folder", "update_video", "search_videos", "get_stats"]

/-- The `CallToolRequestSchema` handler: route by name inside a
`try`/`catch`; an unrecognized name maps to an `Unknown tool` error object
(without throwing), and any error a handler throws is caught and converted
to `{error: message}`.  The individual handlers are abstracted as a
function that either returns a serialized result or throws. -/
def dispatchCall (runTool : String → Except String Json) (name : String) : Json :=
  let attempt : Except String Json :=
    if name ∈ toolNames then runTool name
    else Except.ok (Json.obj [("error", Json.str ("Unknown tool: " ++ name))])
  match attempt with
  | Except.ok result => result
  | Except.error msg => Json.obj [("error", Json.str msg)]

/-- Mock upstream for the end-to-end pagination scenario of the spec:
page 1 returns exactly 100 folders, every other page returns 0 folders
(status 200). -/
def scenarioUp (page : Nat) : FoldersPage :=
  if page = 1 then {status := 200, data := some (List.replicate 100 {})}
  else {status := 200, data := some []}

/-! ## Helper lemmas -/

/-- `x || ""` is the identity on a present string (when `x` is the empty
string the two branches agree). -/
theorem jsOrStr_some_empty_default (u : String) : jsOrStr (some u) "" = u := by
  rcases u with ⟨l⟩
  cases l <;> rfl

/-- Looking a key up in an object finds the value sitting after a prefix
that does not mention the key. -/
theorem lookup_obj_append (l₁ l₂ : List (String × Json)) (k : String) (v : Json)
    (h : ∀ p ∈ l₁, p.fst ≠ k) :
    (Json.obj (l₁ ++ (k, v) :: l₂)).lookup k = some v := by
  induction l₁ with
  | nil => simp [Json.lookup]
  | cons p rest ih =>
    have hp : p.fst ≠ k := h p (by simp)
    have hrest : ∀ q ∈ rest, q.fst ≠ k := fun q hq => h q (by simp [hq])
    simp only [Json.lookup, List.cons_append]
    rw [List.find?_cons_of_neg _ (by simpa using hp)]
    simpa [Json.lookup] using ih hrest

/-! ## Claim theorems -/

/-- C1 counterexample: in the inline video-record construction of
`handleGetFolderVideos`, a video whose `uri` field is absent yields an
*absent* identifier — `v.uri?.split("/").pop()` is `undefined` and the
`id` key is dropped by `JSON.stringify` — not the empty string. -/
theorem folder_video_entry_absent_uri_no_id :
    (folderVideoEntry {}).id ≠ some "" ∧
    (folderVideoEntry {}).id = none ∧
    (folderVideoEntry {}).toJson.keys = [] := by decide

/-- C1 (amended): in `extractVideoMinimal` and `extractFolderMinimal` the
identifier is the trailing path segment of the resource's `uri` and the
empty string when `uri` is absent or empty; in the inline construction of
`handleGetFolderVideos` the identifier is the trailing path segment when
`uri` is present (the empty string when `uri` is empty) but is wholly
absent when the `uri` field is missing. -/
theorem minimal_record_id_is_uri_tail (v : UpstreamVideo) (f : UpstreamFolder) :
    (∀ u, v.uri = some u → (extractVideoMinimal v).id = uriTail u) ∧
    (v.uri = none → (extractVideoMinimal v).id = "") ∧
    (v.uri = some "" → (extractVideoMinimal v).id = "") ∧
    (∀ u, f.uri = some u → (extractFolderMinimal f).id = uriTail u) ∧
    (f.uri = none → (extractFolderMinimal f).id = "") ∧
    (f.uri = some "" → (extractFolderMinimal f).id = "") ∧
    (∀ u, v.uri = some u → (folderVideoEntry v).id = some (uriTail u)) ∧
    (v.uri = none → (folderVideoEntry v).id = none) := by
  refine ⟨?_, ?_, ?_, ?_, ?_, ?_, ?_, ?_⟩
  · intro u hu
    simp [extractVideoMinimal, hu, jsOrStr_some_empty_default]
  · intro hu
    simp [extractVideoMinimal, hu, jsOrStr, uriTail, jsSplit, splitChars]
  · intro hu
    simp only [extractVideoMinimal, hu, jsOrStr_some_empty_default]
    decide
  · intro u hu
    simp [extractFolderMinimal, hu, jsOrStr_some_empty_default]
  · intro hu
    simp [extractFolderMinimal, hu, jsOrStr, uriTail, jsSplit, splitChars]
  · intro hu
    simp only [extractFolderMinimal, hu, jsOrStr_some_empty_default]
    decide
  · intro u hu
    simp [folderVideoEntry, hu]
  · intro hu
    simp [folderVideoEntry, hu]

/-- Witness for C1's amended theorem at concrete inputs: a video with
`uri = "/videos/42"` and a folder with an absent `uri`. -/
theorem minimal_record_id_is_uri_tail_witness :
    (extractVideoMinimal {uri := some "/videos/42"}).id = uriTail "/videos/42" ∧
    (extractFolderMinimal {}).id = "" ∧
    (folderVideoEntry ({} : UpstreamVideo)).id = none := by
  refine ⟨(minimal_record_id_is_uri_tail {uri := some "/videos/42"} {}).1 "/videos/42" rfl,
          (minimal_record_id_is_uri_tail {} {}).2.2.2.2.1 rfl,
          (minimal_record_id_is_uri_tail {} {}).2.2.2.2.2.2.2 rfl⟩

/-- C6: the extractors are total by construction — every field access in
the model is an `Option` projection, mirroring the `?.`/`||` guards of the
source — and a resource with all optional fields absent yields exactly the
documented defaults: name "Untitled", duration 0, video_count 0, and no
`folder` key in the serialized output; missing *nested* fields (for
example metadata present but its video-count leaf absent) also default. -/
theorem extractors_defaults :
    extractVideoMinimal {} =
      {id := "", name := "Untitled", duration := 0, created := "", folder := none} ∧
    extractFolderMinimal {} = {id := "", name := "Untitled", video_count := 0} ∧
    (extractVideoMinimal {}).toJson.keys = ["id", "name", "duration", "created"] ∧
    "folder" ∉ (extractVideoMinimal {}).toJson.keys ∧
    extractFolderMinimal
        {metadata := some {connections := some {videos := some {total := none}}}} =
      {id := "", name := "Untitled", video_count := 0} := by decide

/-- C2 counterexample: `update_video` called with a supplied but empty
`name` sends a PATCH body with no `name` key at all — the truthiness guard
`if (args.name)` skips the empty string — so the body does not contain
every caller-supplied field. -/
theorem update_body_drops_supplied_empty_name :
    ({video_id := "v", name := some ""} : UpdateVideoArgs).name = some "" ∧
    "name" ∉ (buildUpdateBody {video_id := "v", name := some ""}).map Prod.fst := by
  decide

/-- C2 (amended): the PATCH body contains exactly the truthy
caller-supplied fields among {name, description, tags}: a supplied name or
description appears iff it is a non-empty string (with its supplied
value), a supplied tags array always appears, no other key ever appears,
and absent fields are omitted rather than sent as null; in particular
`{video_id, name: "X"}` sends a body equal to `{name: "X"}`. -/
theorem update_body_exactly_truthy_fields (args : UpdateVideoArgs) :
    ("name" ∈ (buildUpdateBody args).map Prod.fst ↔ ∃ s, args.name = some s ∧ s ≠ "") ∧
    ("description" ∈ (buildUpdateBody args).map Prod.fst ↔
      ∃ s, args.description = some s ∧ s ≠ "") ∧
    ("tags" ∈ (buildUpdateBody args).map Prod.fst ↔ args.tags.isSome) ∧
    (∀ k ∈ (buildUpdateBody args).map Prod.fst,
      k = "name" ∨ k = "description" ∨ k = "tags") ∧
    (∀ s, args.name = some s → s ≠ "" → ("name", Json.str s) ∈ buildUpdateBody args) ∧
    (∀ s, args.description = some s → s ≠ "" →
      ("description", Json.str s) ∈ buildUpdateBody args) ∧
    (∀ ts, args.tags = some ts → ("tags", Json.arr (ts.map Json.str)) ∈ buildUpdateBody args) ∧
    buildUpdateBody {video_id := "v", name := some "X"} = [("name", Json.str "X")] := by
  obtain ⟨vid, nm, ds, tg⟩ := args
  refine ⟨?_, ?_, ?_, ?_, ?_, ?_, ?_, rfl⟩ <;>
    rcases nm with _ | n <;> rcases ds with _ | d <;> rcases tg with _ | t <;>
      simp only [buildUpdateBody, List.map_append, List.mem_append] <;>
      (try split_ifs) <;> (try simp_all)
  all_goals tauto

/-- Witness for C2's amended theorem at a concrete call supplying a name,
an empty description and an empty tags array. -/
theorem update_body_exactly_truthy_fields_witness :
    ("name", Json.str "A") ∈
      buildUpdateBody {video_id := "w", name := some "A", description := some "",
                       tags := some []} ∧
    ("tags", Json.arr []) ∈
      buildUpdateBody {video_id := "w", name := some "A", description := some "",
                       tags := some []} := by
  have h := update_body_exactly_truthy_fields
    {video_id := "w", name := some "A", description := some "", tags := some []}
  exact ⟨h.2.2.2.2.1 "A" rfl (by decide), by simpa using h.2.2.2.2.2.2.1 [] rfl⟩

/-- C10: a caller-supplied empty-string name or description is omitted
from the PATCH body (an empty string can never be sent to clear a field),
whereas a supplied empty tags array is included (arrays are truthy). -/
theorem update_body_empty_string_vs_empty_array (args : UpdateVideoArgs) :
    (args.name = some "" → "name" ∉ (buildUpdateBody args).map Prod.fst) ∧
    (args.description = some "" →
      "description" ∉ (buildUpdateBody args).map Prod.fst) ∧
    (args.tags = some [] → ("tags", Json.arr []) ∈ buildUpdateBody args) := by
  obtain ⟨vid, nm, ds, tg⟩ := args
  refine ⟨?_, ?_, ?_⟩ <;> intro h <;>
    rcases nm with _ | n <;> rcases ds with _ | d <;> rcases tg with _ | t <;>
      simp only [buildUpdateBody, List.map_append, List.mem_append] <;>
      (try split_ifs) <;> simp_all

/-- Witness for C10 at a concrete call supplying `name: ""`,
`description: ""` and `tags: []`. -/
theorem update_body_empty_string_vs_empty_array_witness :
    "name" ∉ (buildUpdateBody {video_id := "v", name := some "", description := some "",
                               tags := some []}).map Prod.fst ∧
    ("tags", Json.arr []) ∈
      buildUpdateBody {video_id := "v", name := some "", description := some "",
                       tags := some []} := by
  have h := update_body_empty_string_vs_empty_array
    {video_id := "v", name := some "", description := some "", tags := some []}
  exact ⟨h.1 rfl, by simpa using h.2.2 rfl⟩

/-- C3: `create_folder` on a 201 returns `{success: true, id, name}` with
`id` the trailing segment of the response's self URI; on a 400 whose error
text contains "already exists" it returns exactly
`{success: false, error: "Folder already exists"}`; on any other non-201
status it carries the raw upstream error message with `success: false`;
and concretely a 201 with self URI `/me/projects/789` yields id "789". -/
theorem create_folder_result (name : String) (res : CreateFolderResponse) :
    (res.status = 201 → ∀ u, res.data.uri = some u →
      handleCreateFolder name res =
        Json.obj [("success", Json.bool true), ("id", Json.str (uriTail u)),
                  ("name", Json.str name)]) ∧
    (res.status = 400 → ∀ e, res.data.error = some e →
      jsIncludes e "already exists" = true →
      handleCreateFolder name res =
        Json.obj [("success", Json.bool false),
                  ("error", Json.str "Folder already exists")]) ∧
    (res.status ≠ 201 → ¬(res.status = 400 ∧ errorSaysExists res.data.error) →
      ∀ e, res.data.error = some e → e ≠ "" →
      handleCreateFolder name res =
        Json.obj [("success", Json.bool false), ("error", Json.str e)]) ∧
    handleCreateFolder "N" {status := 201, data := {uri := some "/me/projects/789"}} =
      Json.obj [("success", Json.bool true), ("id", Json.str "789"),
                ("name", Json.str "N")] := by
  refine ⟨?_, ?_, ?_, rfl⟩
  · intro h201 u hu
    simp [handleCreateFolder, h201, hu]
  · intro h400 e he hinc
    have : errorSaysExists res.data.error = true := by simp [errorSaysExists, he, hinc]
    simp [handleCreateFolder, h400, this]
  · intro hne hnot e he hemp
    rw [handleCreateFolder, if_neg hne, if_neg hnot]
    simp [jsOrStr, he, hemp]

/-- Witness for C3 at concrete inputs: a duplicate-name 400, a 500 with a
raw error message, and (via the closed conjunct) a 201 creation. -/
theorem create_folder_result_witness :
    handleCreateFolder "A" {status := 400, data := {error := some "Project already exists."}} =
      Json.obj [("success", Json.bool false),
                ("error", Json.str "Folder already exists")] ∧
    handleCreateFolder "A" {status := 500, data := {error := some "server blew up"}} =
      Json.obj [("success", Json.bool false), ("error", Json.str "server blew up")] := by
  constructor
  · exact (create_folder_result "A" _).2.1 rfl "Project already exists." rfl (by decide)
  · exact (create_folder_result "A" _).2.2.1 (by decide) (by decide) "server blew up" rfl
      (by decide)

/-- C7: when the upstream fetch succeeds with status 200 the result's
description is the first 500 characters of the upstream description (all
of it when shorter, exactly 500 characters when longer, and the empty
string when absent); a non-200 status yields
`{error: "Video not found", status}` instead. -/
theorem get_video_description_truncation (videoId : String) (res : VideoResponse) :
    (res.status = 200 →
      (handleGetVideo videoId res).lookup "description" =
        some (Json.str (jsTake (res.data.description.getD "") 500)) ∧
      (∀ d, res.data.description = some d → 500 < d.data.length →
        (jsTake d 500).data.length = 500) ∧
      (res.data.description = none →
        (handleGetVideo videoId res).lookup "description" = some (Json.str ""))) ∧
    (res.status ≠ 200 →
      handleGetVideo videoId res =
        Json.obj [("error", Json.str "Video not found"), ("status", Json.num res.status)]) := by
  constructor
  · intro h200
    refine ⟨?_, ?_, ?_⟩
    · rcases hn : res.data.name with _ | n <;> rcases hd : res.data.description with _ | d <;>
        simp [handleGetVideo, Json.lookup, h200, hn, hd, jsOrStr_some_empty_default, jsTake] <;>
        rfl
    · intro d hd hlen
      have hb : d.data.length = d.length := rfl
      simp [jsTake, List.length_take]
      omega
    · intro hd
      rcases hn : res.data.name with _ | n <;>
        simp [handleGetVideo, Json.lookup, h200, hn, hd, jsOrStr]
  · intro hne
    simp [handleGetVideo, hne]

/-- Witness for C7 at concrete inputs: a 501-character description is cut
to its first 500 characters, and a 404 yields the error object. -/
theorem get_video_description_truncation_witness :
    (handleGetVideo "9"
        {status := 200, data := {description := some ⟨List.replicate 501 'a'⟩}}).lookup
        "description" = some (Json.str ⟨List.replicate 500 'a'⟩) ∧
    (jsTake (⟨List.replicate 501 'a'⟩ : String) 500).data.length = 500 ∧
    handleGetVideo "9" {status := 404} =
      Json.obj [("error", Json.str "Video not found"), ("status", Json.num 404)] := by
  have h := get_video_description_truncation "9"
    {status := 200, data := {description := some ⟨List.replicate 501 'a'⟩}}
  have h404 := get_video_description_truncation "9" {status := 404}
  refine ⟨?_, ?_, h404.2 (by decide)⟩
  · have h1 := (h.1 rfl).1
    rw [h1]
    show some (Json.str (⟨(List.replicate 501 'a').take 500⟩ : String)) = _
    rw [List.take_replicate]
    norm_num
  · refine (h.1 rfl).2.1 ⟨List.replicate 501 'a'⟩ rfl ?_
    show 500 < (List.replicate 501 'a').length
    rw [List.length_replicate]
    norm_num

/-- C8 counterexample: a call supplying `per_page: 0` sends 50 upstream
(`args.per_page || 50` treats 0 as falsy), not the claimed
"caller's per_page capped at 100", which would be 0. -/
theorem list_videos_per_page_zero_uncapped :
    listVideosPerPage {per_page := some 0} = 50 ∧ min 0 100 = 0 ∧ (50 : Nat) ≠ 0 := by
  decide

/-- C8 (amended): the per_page placed in the outgoing request is the
caller's per_page capped at 100, except that an absent — or zero, which is
falsy — per_page defaults to 50; in particular `per_page: 500` sends
`per_page=100` upstream. -/
theorem list_videos_per_page_cap (args : ListVideosArgs) :
    (∀ n, args.per_page = some n → n ≠ 0 → listVideosPerPage args = min n 100) ∧
    (args.per_page = none → listVideosPerPage args = 50) ∧
    (args.per_page = some 0 → listVideosPerPage args = 50) ∧
    listVideosPerPage {per_page := some 500} = 100 ∧
    listVideosEndpoint {per_page := some 500} =
      "/me/videos?per_page=100&page=1&fields=uri,name,duration,created_time,parent_folder" := by
  refine ⟨?_, ?_, ?_, by decide, by decide⟩
  · intro n hn hnz
    simp [listVideosPerPage, jsOrNat, hn, hnz]
  · intro hn
    simp [listVideosPerPage, jsOrNat, hn]
  · intro hn
    simp [listVideosPerPage, jsOrNat, hn]

/-- Witness for C8's amended theorem at `per_page: 7` and an absent
per_page. -/
theorem list_videos_per_page_cap_witness :
    listVideosPerPage {per_page := some 7} = min 7 100 ∧
    listVideosPerPage {} = 50 := by
  exact ⟨(list_videos_per_page_cap {per_page := some 7}).1 7 rfl (by decide),
         (list_videos_per_page_cap {}).2.1 rfl⟩

/-- The `list_folders` loop performs exactly one fetch per full page plus
the terminal fetch: if the `m` pages from `p` on are full and page `p + m`
is not, the loop from page `p` adds `m + 1` to the fetch count. -/
theorem listFoldersLoop_fetches (up : Nat → FoldersPage) :
    ∀ (m p : Nat) (acc : List FolderMinimal) (fet fuel : Nat),
      (∀ k, p ≤ k → k < p + m → pageFull (up k) = true) →
      pageFull (up (p + m)) = false → m + 1 ≤ fuel →
      (listFoldersLoop up fuel p acc fet).2 = fet + m + 1 := by
  intro m
  induction m with
  | zero =>
    intro p acc fet fuel hfull hterm hfuel
    obtain ⟨f, rfl⟩ : ∃ f, fuel = f + 1 := ⟨fuel - 1, by omega⟩
    rw [Nat.add_zero] at hterm
    rcases hup : up p with ⟨s, d⟩
    rw [hup, pageFull] at hterm
    simp only [listFoldersLoop, hup]
    rcases d with _ | l
    · by_cases hs : s = 200 <;> simp [hs]
    · by_cases hs : s = 200
      · have hl : l.length ≠ 100 := by
          intro hc
          simp [hs, hc] at hterm
        simp [hs, hl]
      · simp [hs]
  | succ m ih =>
    intro p acc fet fuel hfull hterm hfuel
    obtain ⟨f, rfl⟩ : ∃ f, fuel = f + 1 := ⟨fuel - 1, by omega⟩
    have hp : pageFull (up p) = true := hfull p (le_refl p) (by omega)
    rcases hup : up p with ⟨s, d⟩
    rw [hup, pageFull] at hp
    rcases d with _ | l
    · simp at hp
    · simp only [Bool.and_eq_true, beq_iff_eq] at hp
      obtain ⟨hs, hl⟩ := hp
      subst hs
      simp only [listFoldersLoop, hup, if_pos rfl, hl, if_true]
      have hrec := ih (p + 1) (acc ++ l.map extractFolderMinimal) (fet + 1) f
        (fun k h1 h2 => hfull k (by omega) (by omega))
        (by
          have e : p + 1 + m = p + (m + 1) := by omega
          rw [e]
          exact hterm)
        (by omega)
      rw [hrec]
      omega

/-- C4: `list_folders` fetches pages of up to 100 folders sequentially and
terminates at the first page that is not a full successful page — fewer
than 100 folders, a non-200 status, or a missing data array; a failed page
silently ends the loop with the folders accumulated so far (the result is
never an error shape); the returned total is the number of folders
accumulated; and against a mock upstream returning exactly 100 folders on
page 1 and 0 on page 2 the loop terminates after exactly two fetches with
total 100. -/
theorem list_folders_pagination (up : Nat → FoldersPage) (n fuel : Nat)
    (hn : 1 ≤ n)
    (hfull : ∀ k, 1 ≤ k → k < n → pageFull (up k) = true)
    (hterm : pageFull (up n) = false)
    (hfuel : n ≤ fuel) :
    (handleListFolders up fuel).2 = n ∧
    (handleListFolders up fuel).1.total = (handleListFolders up fuel).1.folders.length ∧
    (handleListFolders scenarioUp 10).2 = 2 ∧
    (handleListFolders scenarioUp 10).1.total = 100 := by
  refine ⟨?_, rfl, by decide, by decide⟩
  obtain ⟨m, rfl⟩ : ∃ m, n = m + 1 := ⟨n - 1, by omega⟩
  have h := listFoldersLoop_fetches up m 1 [] 0 fuel
    (fun k h1 h2 => hfull k h1 (by omega))
    (by
      have e : (1 : Nat) + m = m + 1 := by omega
      rw [e]
      exact hterm)
    (by omega)
  simpa [handleListFolders] using h

/-- Witness for C4 at the two-page mock upstream with fuel 10. -/
theorem list_folders_pagination_witness :
    (handleListFolders scenarioUp 10).2 = 2 ∧
    (handleListFolders scenarioUp 10).1.total = 100 := by
  have h := list_folders_pagination scenarioUp 2 10 (by omega)
    (fun k h1 h2 => by
      have hk : k = 1 := by omega
      subst hk
      decide)
    (by decide) (by omega)
  exact ⟨h.1, h.2.2.2⟩

/-- C5: dispatch never lets an exception escape — the result type of
`dispatchCall` is a plain value, an unrecognized operation name yields
`{error: "Unknown tool: <name>"}` without throwing, and an error thrown by
a handler is caught and converted to `{error: message}`. -/
theorem dispatch_never_throws (runTool : String → Except String Json) (name msg : String) :
    (name ∉ toolNames →
      dispatchCall runTool name =
        Json.obj [("error", Json.str ("Unknown tool: " ++ name))]) ∧
    (name ∈ toolNames → runTool name = Except.error msg →
      dispatchCall runTool name = Json.obj [("error", Json.str msg)]) := by
  constructor
  · intro h
    simp [dispatchCall, h]
  · intro hmem herr
    simp [dispatchCall, hmem, herr]

/-- Witness for C5: the unregistered name "frobnicate", and a registered
name whose handler throws. -/
theorem dispatch_never_throws_witness :
    dispatchCall (fun _ => Except.error "boom") "frobnicate" =
      Json.obj [("error", Json.str "Unknown tool: frobnicate")] ∧
    dispatchCall (fun _ => Except.error "boom") "get_video" =
      Json.obj [("error", Json.str "boom")] := by
  constructor
  · exact (dispatch_never_throws (fun _ => Except.error "boom") "frobnicate" "x").1
      (by decide)
  · exact (dispatch_never_throws (fun _ => Except.error "boom") "get_video" "boom").2
      (by decide) rfl

/-- C9: `get_stats` converts storage from bytes to gigabytes by dividing
by 1073741824 and formatting to two decimals — the rounded value
`fixed2Int q / 100` is always within half a hundredth of the exact
quotient — and an upstream used value of 1073741824 bytes yields
`storage_used_gb` exactly "1.00". -/
theorem get_stats_storage_conversion (videoData folderData : StatsCountData)
    (userData : UserData) (q : ℚ) :
    (handleGetStats videoData folderData userData).lookup "storage_used_gb" =
      some (Json.str (storageGb
        (jsOrNat ((userData.upload_quota.bind (·.space)).bind (·.used)) 0))) ∧
    |(fixed2Int q : ℚ) / 100 - q| ≤ 1 / 200 ∧
    (handleGetStats {} {}
        {upload_quota := some {space := some {used := some 1073741824}}}).lookup
        "storage_used_gb" = some (Json.str "1.00") := by
  refine ⟨rfl, ?_, ?_⟩
  · rw [fixed2Int, abs_le]
    have h1 := Int.floor_le (q * 100 + 1 / 2)
    have h2 := Int.lt_floor_add_one (q * 100 + 1 / 2)
    constructor
    · linarith
    · linarith
  · have h100 : fixed2Int ((1073741824 : ℚ) / 1073741824) = 100 := by
      have e : ((1073741824 : ℚ) / 1073741824) * 100 + 1 / 2 = 201 / 2 := by norm_num
      rw [fixed2Int, e, Int.floor_eq_iff]
      norm_num
    have hs : storageGb 1073741824 = "1.00" := by
      rw [storageGb]
      push_cast
      rw [toFixed2, h100]
      rfl
    have hl : (handleGetStats {} {}
        {upload_quota := some {space := some {used := some 1073741824}}}).lookup
        "storage_used_gb" = some (Json.str (storageGb 1073741824)) := rfl
    rw [hl, hs]
